import Mathlib

/-!
Verification of the core logic of `src/app.py` (AstroBioChem Explorer):
the habitability scorer (`habitability_components`, `habitability_score`),
the molecule classifier (the `molecule_key` if/elif chain), and the
dataset filter (`filtered_df`).

Modelling conventions:
* Python floats are modelled as rationals (`ℚ`); every arithmetic fact
  proved here is exact and the claims involve no float-specific behavior.
* Nullable catalog fields (pandas `NaN`) are modelled as `Option`;
  a comparison of `NaN` against a number evaluates to `False` in pandas,
  which the helpers `nullLt`/`nullGt` reproduce by returning `false`
  on `none`.
* A pandas row (`Series`) indexed by a possibly missing column label
  is modelled separately as an association list, with `KeyError`
  surfacing as `Except.error` (see `habitability_components_raw`).
-/

set_option autoImplicit false

namespace AstroBioChem

/-- One catalog row, with the column names used by `app.py`
(`pl_name`, `hostname`, `disc_year`, `pl_rade`, `pl_masse`, `pl_eqt`,
`st_teff`, `st_mass`, `disc_facility`).  String fields are `Option`
as well, since pandas string columns can hold `NaN` (the filter code
passes `na=False` exactly for this case). -/
structure Record where
  pl_name : Option String
  hostname : Option String
  disc_year : Option Int
  pl_rade : Option ℚ
  pl_masse : Option ℚ
  pl_eqt : Option ℚ
  st_teff : Option ℚ
  st_mass : Option ℚ
  disc_facility : Option String
deriving DecidableEq

/-- A `Record` with every field null, used to build concrete witnesses. -/
def nullRecord : Record :=
  ⟨none, none, none, none, none, none, none, none, none⟩

/-- Embedding of `habitability_components` (src/app.py lines 46-70):
per-row sub-scores for temperature, radius, star temperature and
atmosphere, each computed independently, zero when the field is null. -/
def habitability_components (row : Record) : ℚ × ℚ × ℚ × ℚ :=
  let temp_score : ℚ :=
    match row.pl_eqt with
    | none => 0
    | some t => if 250 ≤ t ∧ t ≤ 350 then 30 else max 0 (30 - |t - 300| / 5)
  let radius_score : ℚ :=
    match row.pl_rade with
    | none => 0
    | some r => if 1/2 ≤ r ∧ r ≤ 2 then 30 else max 0 (30 - |r - 5/4| * 15)
  let star_score : ℚ :=
    match row.st_teff with
    | none => 0
    | some s => if 3700 ≤ s ∧ s ≤ 6000 then 20 else 10
  let atmosphere_score : ℚ := 0
  (temp_score, radius_score, star_score, atmosphere_score)

/-- Embedding of `habitability_score` (src/app.py lines 72-73):
`min(sum(habitability_components(row)), 100)`. -/
def habitability_score (row : Record) : ℚ :=
  let c := habitability_components row
  min (c.1 + c.2.1 + c.2.2.1 + c.2.2.2) 100

/-- A row of the scored dataframe: the record plus its `habitability`
column (src/app.py line 75). -/
structure ScoredRecord where
  record : Record
  habitability : ℚ
deriving DecidableEq

/-- Scoring a record, as done row-wise by `df.apply(habitability_score, axis=1)`. -/
def scoreRecord (r : Record) : ScoredRecord :=
  ⟨r, habitability_score r⟩

/-- Pandas semantics of `value < c` when `value` may be `NaN`:
`NaN < c` is `False`. -/
def nullLt (x : Option ℚ) (c : ℚ) : Bool :=
  match x with
  | none => false
  | some v => decide (v < c)

/-- Pandas semantics of `value > c` when `value` may be `NaN`:
`NaN > c` is `False`. -/
def nullGt (x : Option ℚ) (c : ℚ) : Bool :=
  match x with
  | none => false
  | some v => decide (c < v)

/-- Embedding of the molecule selection chain (src/app.py lines 128-135):
ordered if/elif rules, first match wins, with the pandas null-comparison
semantics of `nullLt`/`nullGt`. -/
def molecule_key (planet : ScoredRecord) : String :=
  if nullLt planet.record.pl_eqt 250 then "antifreeze"
  else if 80 < planet.habitability then "rubisco"
  else if nullGt planet.record.st_teff 6000 then "sod"
  else "lysozyme"

/-! ### Dataset filter

`src/app.py` lines 189-192 build the filtered dataframe with
`df["pl_name"].str.contains(search, case=False, na=False) |
 df["hostname"].str.contains(search, case=False, na=False)`.
Pandas `Series.str.contains` defaults to `regex=True`, so the search
text is interpreted as a Python regular expression (with
`re.IGNORECASE` from `case=False`, and `NaN` rows yielding `False`
from `na=False`).  We embed `re.search` for the fragment of the
pattern language that literal characters and `.` generate; patterns
using any other metacharacter are outside the modelled fragment and
mapped to `false` — no theorem below exercises that branch. -/

/-- The metacharacters of Python regular expressions (characters that
do not stand for themselves in a pattern). -/
def isRegexMeta (c : Char) : Bool :=
  ['.', '^', '$', '*', '+', '?', '\x7b', '\x7d', '[', ']', '\\', '|', '(', ')'].contains c

/-- One atom of the modelled regex fragment: a literal character or `.`. -/
inductive RE where
  | lit : Char → RE
  | dot : RE
deriving DecidableEq

/-- Parse a pattern made of literal characters and `.`; any other
metacharacter is outside the modelled fragment. -/
def parse_pat : List Char → Option (List RE)
  | [] => some []
  | c :: rest =>
    match parse_pat rest with
    | none => none
    | some p =>
      if c = '.' then some (RE.dot :: p)
      else if isRegexMeta c then none
      else some (RE.lit c :: p)

/-- Whether one regex atom matches one character, under `re.IGNORECASE`
(a literal compares case-insensitively; `.` matches anything but a
newline). -/
def re_match1 (r : RE) (c : Char) : Bool :=
  match r with
  | RE.lit a => a.toLower == c.toLower
  | RE.dot => c != '\n'

/-- Whether the atom sequence `p` matches a prefix of `s`. -/
def re_match_at : List RE → List Char → Bool
  | [], _ => true
  | _ :: _, [] => false
  | r :: p, c :: s => re_match1 r c && re_match_at p s

/-- `re.search` semantics for the modelled fragment: the pattern
matches starting at some position of `s`. -/
def re_search (p : List RE) (s : List Char) : Bool :=
  re_match_at p s ||
    match s with
    | [] => false
    | _ :: t => re_search p t

/-- Embedding of `series.str.contains(search, case=False, na=False)`
for one cell: `NaN` gives `False`; otherwise the search text is a
regex searched case-insensitively in the cell. -/
def str_contains (cell : Option String) (search : String) : Bool :=
  match cell, parse_pat search.toList with
  | none, _ => false
  | some _, none => false
  | some s, some p => re_search p s.toList

/-- Embedding of `filtered_df` (src/app.py lines 189-192): the full
table when the search text is empty (Python falsiness of `""`),
otherwise the rows whose `pl_name` or `hostname` cell matches. -/
def filtered_df (df : List ScoredRecord) (search : String) : List ScoredRecord :=
  if search = "" then df
  else df.filter fun r =>
    str_contains r.record.pl_name search || str_contains r.record.hostname search

/-- Case-insensitive literal prefix test on character lists, used to
state the spec's reading of the filter. -/
def ci_pref : List Char → List Char → Bool
  | [], _ => true
  | _ :: _, [] => false
  | a :: p, b :: s => a.toLower == b.toLower && ci_pref p s

/-- Case-insensitive literal substring test on character lists. -/
def ci_substr (pat : List Char) (s : List Char) : Bool :=
  ci_pref pat s ||
    match s with
    | [] => false
    | _ :: t => ci_substr pat t

/-- The spec's wording of the filter predicate for one cell (for
comparison with `str_contains`): the query is contained in the cell as
a case-insensitive literal substring, and a null cell never matches. -/
def spec_contains (cell : Option String) (search : String) : Bool :=
  match cell with
  | none => false
  | some s => ci_substr search.toList s.toList

/-! ### Raw-row scorer

`habitability_components` receives a pandas `Series`; indexing a
`Series` with a missing column label raises `KeyError`.  To settle the
missing-column behavior we re-embed the same code over an association
list from column labels to (nullable) numeric values, with the lookup
failure made explicit. -/

/-- Indexing `row[k]` on a pandas `Series` modelled as an association
list: a present label yields its (possibly null) value, a missing
label raises `KeyError`. -/
def rowGet (row : List (String × Option ℚ)) (k : String) : Except String (Option ℚ) :=
  match row with
  | [] => Except.error ("KeyError: " ++ k)
  | (k2, v) :: rest => if k2 = k then Except.ok v else rowGet rest k

/-- `habitability_components` over a raw row, with pandas `KeyError`
semantics for missing columns: each `row[...]` access either returns
the cell or raises.  The field accesses happen in the source's order
(`pl_eqt`, then `pl_rade`, then `st_teff`). -/
def habitability_components_raw (row : List (String × Option ℚ)) :
    Except String (ℚ × ℚ × ℚ × ℚ) := do
  let eqt ← rowGet row "pl_eqt"
  let temp_score : ℚ :=
    match eqt with
    | none => 0
    | some t => if 250 ≤ t ∧ t ≤ 350 then 30 else max 0 (30 - |t - 300| / 5)
  let rade ← rowGet row "pl_rade"
  let radius_score : ℚ :=
    match rade with
    | none => 0
    | some r => if 1/2 ≤ r ∧ r ≤ 2 then 30 else max 0 (30 - |r - 5/4| * 15)
  let teff ← rowGet row "st_teff"
  let star_score : ℚ :=
    match teff with
    | none => 0
    | some s => if 3700 ≤ s ∧ s ≤ 6000 then 20 else 10
  return (temp_score, radius_score, star_score, 0)

/-! ### Concrete rows used to instantiate the theorems -/

/-- A record whose equilibrium temperature is 351 K and every other
field null: its temperature term is 30 - 51/5 = 99/5, a non-integer. -/
def record351 : Record := { nullRecord with pl_eqt := some 351 }

/-- A scored record with equilibrium temperature 200 K and habitability
90, satisfying both the antifreeze rule and the rubisco rule. -/
def p200 : ScoredRecord := ⟨{ nullRecord with pl_eqt := some 200 }, 90⟩

/-- A scored row named "abc" with null host name. -/
def abcRow : ScoredRecord := ⟨{ nullRecord with pl_name := some "abc" }, 0⟩

/-- The Kepler-442b row of the spec's filter example. -/
def keplerRow : ScoredRecord :=
  ⟨{ nullRecord with pl_name := some "Kepler-442b", hostname := some "Kepler-442" }, 72⟩

/-- The TRAPPIST-1e row of the spec's filter example. -/
def trappistRow : ScoredRecord :=
  ⟨{ nullRecord with pl_name := some "TRAPPIST-1e", hostname := some "TRAPPIST-1" }, 85⟩

/-- The two-row table of the spec's filter example. -/
def exampleTable : List ScoredRecord := [keplerRow, trappistRow]

/-- A raw row lacking the `pl_eqt` column. -/
def missingEqtRow : List (String × Option ℚ) :=
  [("pl_rade", some 1), ("st_teff", some 5000)]

/-! ### Bounds on the individual scoring terms -/

theorem temp_term_nonneg (row : Record) : 0 ≤ (habitability_components row).1 := by
  unfold habitability_components
  cases row.pl_eqt with
  | none => norm_num
  | some t =>
    simp only
    split
    · norm_num
    · exact le_max_left 0 _

theorem temp_term_le (row : Record) : (habitability_components row).1 ≤ 30 := by
  unfold habitability_components
  cases row.pl_eqt with
  | none => norm_num
  | some t =>
    simp only
    split
    · norm_num
    · have h5 : 0 ≤ |t - 300| / 5 := by positivity
      exact max_le (by norm_num) (by linarith)

theorem radius_term_nonneg (row : Record) : 0 ≤ (habitability_components row).2.1 := by
  unfold habitability_components
  cases row.pl_rade with
  | none => norm_num
  | some r =>
    simp only
    split
    · norm_num
    · exact le_max_left 0 _

theorem radius_term_le (row : Record) : (habitability_components row).2.1 ≤ 30 := by
  unfold habitability_components
  cases row.pl_rade with
  | none => norm_num
  | some r =>
    simp only
    split
    · norm_num
    · have h5 : 0 ≤ |r - 5/4| * 15 := by positivity
      exact max_le (by norm_num) (by linarith)

theorem star_term_nonneg (row : Record) : 0 ≤ (habitability_components row).2.2.1 := by
  unfold habitability_components
  cases row.st_teff with
  | none => norm_num
  | some s =>
    simp only
    split <;> norm_num

theorem star_term_le (row : Record) : (habitability_components row).2.2.1 ≤ 20 := by
  unfold habitability_components
  cases row.st_teff with
  | none => norm_num
  | some s =>
    simp only
    split <;> norm_num

theorem atmosphere_term_eq_zero (row : Record) : (habitability_components row).2.2.2 = 0 := by
  unfold habitability_components
  cases row.pl_eqt <;> cases row.pl_rade <;> cases row.st_teff <;> rfl

theorem components_sum_nonneg (row : Record) :
    0 ≤ (habitability_components row).1 + (habitability_components row).2.1 +
      (habitability_components row).2.2.1 + (habitability_components row).2.2.2 := by
  have h1 := temp_term_nonneg row
  have h2 := radius_term_nonneg row
  have h3 := star_term_nonneg row
  have h4 := atmosphere_term_eq_zero row
  linarith

theorem components_sum_le_80 (row : Record) :
    (habitability_components row).1 + (habitability_components row).2.1 +
      (habitability_components row).2.2.1 + (habitability_components row).2.2.2 ≤ 80 := by
  have h1 := temp_term_le row
  have h2 := radius_term_le row
  have h3 := star_term_le row
  have h4 := atmosphere_term_eq_zero row
  linarith

/-- The clamp in `habitability_score` never fires: the sum of the four
terms is at most 80 < 100. -/
theorem habitability_score_eq_sum (row : Record) :
    habitability_score row =
      (habitability_components row).1 + (habitability_components row).2.1 +
      (habitability_components row).2.2.1 + (habitability_components row).2.2.2 :=
  min_eq_left (le_trans (components_sum_le_80 row) (by norm_num))

theorem habitability_score_le_80' (row : Record) : habitability_score row ≤ 80 := by
  rw [habitability_score_eq_sum]
  exact components_sum_le_80 row

theorem habitability_score_nonneg' (row : Record) : 0 ≤ habitability_score row := by
  rw [habitability_score_eq_sum]
  exact components_sum_nonneg row

/-! ### Claim theorems: scorer -/

/-- C1: for every record — any combination of null fields, any numeric
values including out-of-range ones — the combined habitability score
equals `min` of the sum of the four component terms and 100, and lies
in the interval [0, 100]. -/
theorem C1_habitability_clamped (row : Record) :
    habitability_score row =
      min ((habitability_components row).1 + (habitability_components row).2.1 +
        (habitability_components row).2.2.1 + (habitability_components row).2.2.2) 100 ∧
    0 ≤ habitability_score row ∧ habitability_score row ≤ 100 :=
  ⟨rfl, habitability_score_nonneg' row,
    le_trans (habitability_score_le_80' row) (by norm_num)⟩

/-- C2: the temperature term is 30 when `pl_eqt` is present in
[250, 350]; `max 0 (30 - |pl_eqt - 300| / 5)` when present outside that
interval; 0 when absent; and exactly 10 at `pl_eqt = 200`. -/
theorem C2_temperature_term (row : Record) (t : ℚ) :
    (row.pl_eqt = some t → 250 ≤ t → t ≤ 350 → (habitability_components row).1 = 30) ∧
    (row.pl_eqt = some t → ¬(250 ≤ t ∧ t ≤ 350) →
      (habitability_components row).1 = max 0 (30 - |t - 300| / 5)) ∧
    (row.pl_eqt = none → (habitability_components row).1 = 0) ∧
    (row.pl_eqt = some 200 → (habitability_components row).1 = 10) := by
  refine ⟨?_, ?_, ?_, ?_⟩ <;> intro he
  · intro h1 h2
    unfold habitability_components
    rw [he]
    simp only
    rw [if_pos ⟨h1, h2⟩]
  · intro h
    unfold habitability_components
    rw [he]
    simp only
    rw [if_neg h]
  · unfold habitability_components
    rw [he]
  · unfold habitability_components
    rw [he]
    norm_num

/-- Witness for C2: the four temperature cases evaluated at concrete
records (equilibrium temperature 300 K, 351 K, absent, 200 K). -/
theorem C2_temperature_term_witness :
    (habitability_components { nullRecord with pl_eqt := some 300 }).1 = 30 ∧
    (habitability_components record351).1 = max 0 (30 - |(351 : ℚ) - 300| / 5) ∧
    (habitability_components nullRecord).1 = 0 ∧
    (habitability_components { nullRecord with pl_eqt := some 200 }).1 = 10 :=
  ⟨(C2_temperature_term { nullRecord with pl_eqt := some 300 } 300).1 rfl
      (by norm_num) (by norm_num),
   (C2_temperature_term record351 351).2.1 rfl (by norm_num),
   (C2_temperature_term nullRecord 0).2.2.1 rfl,
   (C2_temperature_term { nullRecord with pl_eqt := some 200 } 200).2.2.2 rfl⟩

/-- C3: the star term is 20 when `st_teff` is present in [3700, 6000];
10 when present outside that interval; 0 when absent. -/
theorem C3_star_term (row : Record) (s : ℚ) :
    (row.st_teff = some s → 3700 ≤ s → s ≤ 6000 → (habitability_components row).2.2.1 = 20) ∧
    (row.st_teff = some s → ¬(3700 ≤ s ∧ s ≤ 6000) → (habitability_components row).2.2.1 = 10) ∧
    (row.st_teff = none → (habitability_components row).2.2.1 = 0) := by
  refine ⟨?_, ?_, ?_⟩ <;> intro he
  · intro h1 h2
    unfold habitability_components
    rw [he]
    simp only
    rw [if_pos ⟨h1, h2⟩]
  · intro h
    unfold habitability_components
    rw [he]
    simp only
    rw [if_neg h]
  · unfold habitability_components
    rw [he]

/-- Witness for C3: the three star cases evaluated at concrete records
(star temperature 5000 K, 7000 K, absent). -/
theorem C3_star_term_witness :
    (habitability_components { nullRecord with st_teff := some 5000 }).2.2.1 = 20 ∧
    (habitability_components { nullRecord with st_teff := some 7000 }).2.2.1 = 10 ∧
    (habitability_components nullRecord).2.2.1 = 0 :=
  ⟨(C3_star_term { nullRecord with st_teff := some 5000 } 5000).1 rfl
      (by norm_num) (by norm_num),
   (C3_star_term { nullRecord with st_teff := some 7000 } 7000).2.1 rfl (by norm_num),
   (C3_star_term nullRecord 0).2.2 rfl⟩

/-- C7 counterexample: at `pl_eqt = 351` (all other fields null) the
combined score attached to the scored record is 99/5 = 19.8, whose
reduced denominator is 5 — the score column holds fractional values,
no integer rounding is applied anywhere in the scorer. -/
theorem C7_counterexample_fractional_score :
    habitability_score record351 = 99/5 ∧ (habitability_score record351).den ≠ 1 := by
  have h : habitability_score record351 = 99/5 := by
    unfold habitability_score habitability_components record351 nullRecord
    norm_num
  exact ⟨h, by rw [h]; norm_num⟩

/-- C7 amended: the combined habitability score attached to a scored
record is a rational (float) value in [0, 100]; it is not rounded to an
integer by the scorer (integer truncation happens only in the
presentation layer, via `int(planet["habitability"])`). -/
theorem C7_amended_score_bounded (row : Record) :
    0 ≤ habitability_score row ∧ habitability_score row ≤ 100 :=
  ⟨habitability_score_nonneg' row,
    le_trans (habitability_score_le_80' row) (by norm_num)⟩

/-- C9: the four terms are bounded by 30, 30, 20 and 0 respectively, so
the sum never exceeds 80: the `min(..., 100)` clamp never alters the
sum and the combined score is at most 80. -/
theorem C9_score_at_most_80 (row : Record) :
    habitability_score row =
      (habitability_components row).1 + (habitability_components row).2.1 +
      (habitability_components row).2.2.1 + (habitability_components row).2.2.2 ∧
    habitability_score row ≤ 80 :=
  ⟨habitability_score_eq_sum row, habitability_score_le_80' row⟩

/-! ### Claim theorems: classifier -/

/-- C4: `molecule_key` is total on scored records, returning one of the
four labels; it follows the rule order antifreeze, rubisco, sod,
lysozyme with first match winning; a comparison against a null field
evaluates as false so execution falls through; and a record satisfying
both the antifreeze rule and the rubisco rule (equilibrium temperature
200 K, habitability 90) resolves to antifreeze. -/
theorem C4_molecule_key_rules (p : ScoredRecord) :
    (molecule_key p = "antifreeze" ∨ molecule_key p = "rubisco" ∨
      molecule_key p = "sod" ∨ molecule_key p = "lysozyme") ∧
    (nullLt p.record.pl_eqt 250 = true → molecule_key p = "antifreeze") ∧
    (nullLt p.record.pl_eqt 250 = false → 80 < p.habitability →
      molecule_key p = "rubisco") ∧
    (nullLt p.record.pl_eqt 250 = false → ¬ 80 < p.habitability →
      nullGt p.record.st_teff 6000 = true → molecule_key p = "sod") ∧
    (nullLt p.record.pl_eqt 250 = false → ¬ 80 < p.habitability →
      nullGt p.record.st_teff 6000 = false → molecule_key p = "lysozyme") ∧
    (p.record.pl_eqt = none → nullLt p.record.pl_eqt 250 = false) ∧
    (p.record.st_teff = none → nullGt p.record.st_teff 6000 = false) ∧
    (p.record.pl_eqt = some 200 → p.habitability = 90 →
      molecule_key p = "antifreeze") := by
  refine ⟨?_, ?_, ?_, ?_, ?_, ?_, ?_, ?_⟩
  · unfold molecule_key
    split
    · exact Or.inl rfl
    · split
      · exact Or.inr (Or.inl rfl)
      · split
        · exact Or.inr (Or.inr (Or.inl rfl))
        · exact Or.inr (Or.inr (Or.inr rfl))
  · intro h1
    unfold molecule_key
    rw [h1]
    rfl
  · intro h1 h2
    unfold molecule_key
    rw [h1]
    simp only [Bool.false_eq_true, if_false]
    rw [if_pos h2]
  · intro h1 h2 h3
    unfold molecule_key
    rw [h1, h3]
    simp only [Bool.false_eq_true, if_false]
    rw [if_neg h2]
    rfl
  · intro h1 h2 h3
    unfold molecule_key
    rw [h1, h3]
    simp only [Bool.false_eq_true, if_false]
    rw [if_neg h2]
  · intro h
    unfold nullLt
    rw [h]
  · intro h
    unfold nullGt
    rw [h]
  · intro he _
    unfold molecule_key
    rw [he]
    rfl

/-- Witness for C4: at the concrete record with equilibrium temperature
200 K and habitability 90 — satisfying both the antifreeze and the
rubisco guard — the classifier returns antifreeze. -/
theorem C4_molecule_key_rules_witness : molecule_key p200 = "antifreeze" :=
  (C4_molecule_key_rules p200).2.2.2.2.2.2.2 rfl rfl

/-- C10: a habitability score produced by the scorer never exceeds 80,
so the rubisco branch (which requires habitability > 80) is
unreachable: the classifier never returns "rubisco" on a record scored
by `habitability_score`. -/
theorem C10_rubisco_unreachable (r : Record) :
    molecule_key (scoreRecord r) ≠ "rubisco" := by
  have h80 : ¬ 80 < (scoreRecord r).habitability := by
    simp only [scoreRecord, not_lt]
    exact habitability_score_le_80' r
  unfold molecule_key
  split_ifs with h1 h2
  · decide
  · decide
  · decide

/-! ### Filter lemmas: on metacharacter-free queries the regex search
coincides with case-insensitive substring containment -/

theorem parse_pat_literal (q : List Char) (h : ∀ c ∈ q, isRegexMeta c = false) :
    parse_pat q = some (q.map RE.lit) := by
  induction q with
  | nil => rfl
  | cons c rest ih =>
    have hc : isRegexMeta c = false := h c (List.mem_cons_self c rest)
    have hrest := ih fun x hx => h x (List.mem_cons_of_mem c hx)
    have hcdot : ¬ c = '.' := by
      intro hcd
      rw [hcd] at hc
      exact absurd hc (by decide)
    simp [parse_pat, hrest, hcdot, hc]

theorem re_match_at_lit (q : List Char) :
    ∀ s : List Char, re_match_at (q.map RE.lit) s = ci_pref q s := by
  induction q with
  | nil => intro s; cases s <;> rfl
  | cons a q ih =>
    intro s
    cases s with
    | nil => rfl
    | cons b s => simp [re_match_at, ci_pref, re_match1, ih]

theorem re_search_lit (q : List Char) :
    ∀ s : List Char, re_search (q.map RE.lit) s = ci_substr q s := by
  intro s
  induction s with
  | nil => simp [re_search, ci_substr, re_match_at_lit]
  | cons c s ih => simp [re_search, ci_substr, re_match_at_lit, ih]

theorem str_contains_eq_spec (cell : Option String) (q : String)
    (h : ∀ c ∈ q.toList, isRegexMeta c = false) :
    str_contains cell q = spec_contains cell q := by
  cases cell with
  | none => rfl
  | some s =>
    unfold str_contains spec_contains
    rw [parse_pat_literal q.toList h]
    exact re_search_lit q.toList s.toList

/-! ### Claim theorems: filter -/

/-- C5 counterexample: the search text is passed to pandas
`str.contains` with its default `regex=True`, so it is interpreted as a
regular expression, not as a literal substring.  Querying "." keeps the
row named "abc" (the regex `.` matches any character), although "." is
not a case-insensitive substring of "abc" and the host name is null —
the claim's substring reading predicts an empty result. -/
theorem C5_counterexample_regex_query :
    filtered_df [abcRow] "." = [abcRow] ∧
    spec_contains abcRow.record.pl_name "." = false ∧
    spec_contains abcRow.record.hostname "." = false := by
  refine ⟨?_, ?_, ?_⟩ <;> decide

/-- C5 amended: with an empty or absent query, `filtered_df` returns
the whole table; with a nonempty query free of regex metacharacters
(pandas `str.contains` defaults to `regex=True`, so a metacharacter
query is matched as a regular expression instead), it returns exactly
the rows whose `pl_name` or `hostname` contains the query as a
case-insensitive substring, a null cell never matching and never
raising; an unmatched query yields the empty list, not an error. -/
theorem C5_filter_exact_subset (df : List ScoredRecord) (search : String) :
    (search = "" → filtered_df df search = df) ∧
    (search ≠ "" → (∀ c ∈ search.toList, isRegexMeta c = false) →
      filtered_df df search =
        df.filter fun r =>
          spec_contains r.record.pl_name search ||
          spec_contains r.record.hostname search) := by
  constructor
  · intro h
    unfold filtered_df
    rw [if_pos h]
  · intro hne hlit
    unfold filtered_df
    rw [if_neg hne]
    refine List.filter_congr ?_
    intro r _
    rw [str_contains_eq_spec _ _ hlit, str_contains_eq_spec _ _ hlit]

/-- Witness for C5: on the spec's two-row example table, the query
"trap" selects exactly the TRAPPIST-1e row (case-insensitively), and
the result agrees with the substring reading of the filter. -/
theorem C5_filter_exact_subset_witness :
    filtered_df exampleTable "trap" =
      List.filter
        (fun r => spec_contains r.record.pl_name "trap" ||
          spec_contains r.record.hostname "trap") exampleTable ∧
    filtered_df exampleTable "trap" = [trappistRow] :=
  ⟨(C5_filter_exact_subset exampleTable "trap").2 (by decide) (by decide),
   by decide⟩

/-! ### Claim theorem: missing column -/

/-- C8: the scorer indexes the row by column label without any guard,
so a table from which an optional numeric column is entirely absent
does not degrade to a null field: the first access
`row["pl_eqt"]` raises `KeyError` and scoring fails, contrary to the
spec's requirement that missing optional columns be treated as
always-null without failing. -/
theorem C8_missing_column_keyerror :
    habitability_components_raw missingEqtRow = Except.error "KeyError: pl_eqt" ∧
    rowGet missingEqtRow "pl_eqt" = Except.error "KeyError: pl_eqt" := by
  constructor <;> rfl

end AstroBioChem
